import Mathlib

/-
  Verification development for the registry-cache pull-through proxy.

  The definitions below are a shallow embedding of the Rust sources:
    src/registry/digest.rs, src/registry/repository.rs,
    src/error/error_kind.rs, src/error/registry.rs,
    src/repository/filesystem.rs, src/handlers/command/blob/persist.rs,
    src/pubsub/command_bus.rs, src/db/db_manifests.rs,
    src/api/registry/blobs.rs, src/api/registry/mod.rs,
    src/api/registry/manifests.rs.

  Machine integers are modelled as Nat with explicit reduction modulo
  two to the word size where overflow matters; fallible Rust functions
  returning Result are modelled with Except; byte buffers are List Nat.
-/

namespace RegistryCache

/-! ## Character classes of the validation regular expressions

REGEX_ALGO   = ^[A-Za-z0-9_+.-]+$          (src/registry/digest.rs line 18)
REGEX_DIGEST = ^[A-Fa-f0-9]+$              (src/registry/digest.rs line 19)
REGEX_COMPONENT = ^[a-z0-9]+(?:[._-][a-z0-9]+)*  (src/registry/repository.rs line 18)

The first two are anchored on both sides, so Regex::is_match holds iff
the string is non-empty and every character lies in the class.
REGEX_COMPONENT is anchored only on the left and is used through
Regex::is_match (does some match exist); since a single leading
[a-z0-9] character already constitutes a match and the starred group is
optional, is_match holds iff the first character of the string is a
lowercase ASCII letter or a digit.  (The repository's own test
repository_complex_with_space_test confirms this: the component
"test rust" is accepted.)
-/

/-- Character class [A-Za-z0-9_+.-] of REGEX_ALGO. -/
def isAlgoChar (c : Char) : Bool :=
  (('A' ≤ c && c ≤ 'Z') || ('a' ≤ c && c ≤ 'z') || ('0' ≤ c && c ≤ '9')
    || c = '_' || c = '+' || c = '.' || c = '-')

/-- Character class [A-Fa-f0-9] of REGEX_DIGEST. -/
def isHexChar (c : Char) : Bool :=
  (('A' ≤ c && c ≤ 'F') || ('a' ≤ c && c ≤ 'f') || ('0' ≤ c && c ≤ '9'))

/-- Character class [a-z0-9] opening REGEX_COMPONENT. -/
def isComponentStartChar (c : Char) : Bool :=
  (('a' ≤ c && c ≤ 'z') || ('0' ≤ c && c ≤ '9'))

/-- Model of REGEX_ALGO.is_match: anchored both sides, one or more chars. -/
def regexAlgoIsMatch (s : String) : Bool :=
  !s.toList.isEmpty && s.toList.all isAlgoChar

/-- Model of REGEX_DIGEST.is_match: anchored both sides, one or more chars. -/
def regexDigestIsMatch (s : String) : Bool :=
  !s.toList.isEmpty && s.toList.all isHexChar

/-- Model of REGEX_COMPONENT.is_match.  The pattern is anchored only at
the start and used through is_match, so a match exists iff the first
character is in [a-z0-9] (the starred tail group may match zero times). -/
def regexComponentIsMatch (s : String) : Bool :=
  match s.toList with
  | [] => false
  | c :: _ => isComponentStartChar c

/-! ## DigestAlgorithm (src/registry/digest.rs lines 22-50) -/

/-- DigestAlgorithm enum: Sha256 (default) and Sha512. -/
inductive DigestAlgorithm where
  | Sha256
  | Sha512
deriving DecidableEq, Repr

/-- Display impl for DigestAlgorithm (lines 43-50). -/
def DigestAlgorithm.toStr : DigestAlgorithm → String
  | .Sha256 => "sha256"
  | .Sha512 => "sha512"

/-- FromStr impl for DigestAlgorithm (lines 29-41).  Note the match is on
the four exact literals sha256, sha512, SHA256, SHA512: mixed-case spellings
such as Sha256 are rejected. -/
def DigestAlgorithm.from_str (s : String) : Except String DigestAlgorithm :=
  if s = "sha256" then .ok .Sha256
  else if s = "sha512" then .ok .Sha512
  else if s = "SHA256" then .ok .Sha256
  else if s = "SHA512" then .ok .Sha512
  else .error ("'" ++ s ++ "' is not a valid DigestAlgorithm")

/-! ## Digest (src/registry/digest.rs lines 52-105 and 159-198) -/

/-- Digest: the algorithm together with the hashed value. -/
structure Digest where
  algo : DigestAlgorithm
  hash : String
deriving DecidableEq, Repr

/-- Display impl for Digest (lines 68-72): "algo:hash". -/
def Digest.toStr (d : Digest) : String :=
  d.algo.toStr ++ ":" ++ d.hash

/-- RepositoryError (src/registry/repository_error.rs): a message string. -/
structure RepositoryError where
  message : String
deriving DecidableEq, Repr

/-- Model of Rust str::contains for a single character: some character of
the string equals it. -/
def strContainsChar (s : String) (c : Char) : Bool :=
  s.toList.any (fun x => x = c)

/-- Model of Rust str::starts_with: the pattern is a prefix. -/
def strStartsWith (s pre : String) : Bool :=
  pre.toList.isPrefixOf s.toList

/-- Model of Rust str::split on a single character: the list of maximal
runs between occurrences of the separator.  Like Rust's split, the empty
input yields one empty fragment and separators at the ends yield empty
fragments. -/
def splitChars (sep : Char) : List Char → List (List Char)
  | [] => [[]]
  | x :: xs =>
    match splitChars sep xs with
    | [] => [[]]
    | h :: t => if x = sep then [] :: h :: t else (x :: h) :: t

/-- component.split(given char) collected into strings (digest.rs lines 96-99). -/
def splitOn (sep : Char) (s : String) : List String :=
  (splitChars sep s.toList).map (fun l => String.mk l)

/-- Digest::parse_parts (digest.rs lines 163-198): require at least two
parts, check REGEX_ALGO on part 0 and REGEX_DIGEST on part 1, then resolve
the algorithm with FromStr.  Any parts beyond the second are ignored. -/
def Digest.parse_parts (algo_digest : List String) : Except RepositoryError Digest :=
  match algo_digest with
  | algo :: digest :: _ =>
    if !regexAlgoIsMatch algo then
      .error ⟨"Component cannot be parsed into a TAG wrong digest algorithm: " ++ algo⟩
    else if !regexDigestIsMatch digest then
      .error ⟨"Component cannot be parsed into a TAG wrong digest format: " ++ digest⟩
    else
      match DigestAlgorithm.from_str algo with
      | .error e => .error ⟨e⟩
      | .ok algo_enum => .ok ⟨algo_enum, digest⟩
  | _ => .error ⟨"Component cannot be parsed into a digest"⟩

/-! ## Error kinds and registry errors (src/error) -/

/-- ErrorKind enum (src/error/error_kind.rs lines 36-127). -/
inductive ErrorKind where
  | RegistryBlobError
  | RegistryBlobUnknown
  | RegistryBlobUploadInvalid
  | RegistryBlobUploadUnknown
  | RegistryDigestInvalid
  | RegistryManifestBlobUnknown
  | RegistryManifestInvalid
  | RegistryManifestUnknown
  | RegistryManifestUnverified
  | RegistryNameInvalid
  | RegistryNameUnknown
  | RegistrySizeInvalid
  | RegistryTagInvalid
  | RegistryUnauthorized
  | SessionError
  | InvalidSession
  | Unauthorized
  | InternalError
  | JWTokenValidationError
  | JWTokenSignError
  | NotFound
  | MaxPayloadError
  | AuthenticationError
  | AuthorizationError
  | SQLError
  | JSONError
  | RecordNotFound
  | ConfigError
deriving DecidableEq, Repr

/-- RegistryError (src/error/registry.rs lines 27-39): kind, message,
underlying error and authentication realm. -/
structure RegistryError where
  kind : ErrorKind
  message : String
  error : String
  realm : String
deriving DecidableEq, Repr

/-- RegistryError::new (registry.rs lines 79-81). -/
def RegistryError.new (kind : ErrorKind) : RegistryError :=
  ⟨kind, "", "", ""⟩

/-- RegistryError::with_context (registry.rs lines 85-91). -/
def RegistryError.with_context (e : RegistryError) (context : String) : RegistryError :=
  { e with message := context }

/-- RegistryError::with_error (registry.rs lines 94-97). -/
def RegistryError.with_error (e : RegistryError) (error : String) : RegistryError :=
  { e with error := error }

/-- Decidable equality for Except values, used to evaluate the embedded
fallible functions on concrete inputs. -/
instance {e a : Type} [DecidableEq e] [DecidableEq a] : DecidableEq (Except e a) := fun x y =>
  match x, y with
  | .ok u, .ok v =>
    if h : u = v then .isTrue (by rw [h]) else .isFalse (fun hc => h (Except.ok.inj hc))
  | .error u, .error v =>
    if h : u = v then .isTrue (by rw [h]) else .isFalse (fun hc => h (Except.error.inj hc))
  | .ok _, .error _ => .isFalse (fun hc => Except.noConfusion hc)
  | .error _, .ok _ => .isFalse (fun hc => Except.noConfusion hc)

/-- Digest::parse (digest.rs lines 95-105): split the component on the
colon character and delegate to parse_parts, wrapping a failure in a
RegistryDigestInvalid registry error. -/
def Digest.parse (component : String) : Except RegistryError Digest :=
  match Digest.parse_parts (splitOn ':' component) with
  | .ok d => .ok d
  | .error e =>
    .error ((RegistryError.new .RegistryDigestInvalid).with_context
      ("failed to parse digest " ++ component) |>.with_error e.message)

/-- ResponseError::status_code for RegistryError
(src/error/registry.rs lines 142-182), as the numeric HTTP status.
Note that RegistryNameInvalid sits in the not-found group (404). -/
def RegistryError.status_code (e : RegistryError) : Nat :=
  match e.kind with
  | .RegistryDigestInvalid => 400
  | .RegistryManifestInvalid => 400
  | .RegistryBlobUploadInvalid => 400
  | .RegistrySizeInvalid => 400
  | .RegistryTagInvalid => 400
  | .RegistryNameInvalid => 404
  | .RegistryNameUnknown => 404
  | .RegistryManifestUnknown => 404
  | .RegistryBlobUnknown => 404
  | .RegistryBlobUploadUnknown => 404
  | .RegistryManifestBlobUnknown => 404
  | .RecordNotFound => 404
  | .NotFound => 404
  | .RegistryManifestUnverified => 417
  | .RegistryUnauthorized => 401
  | .AuthenticationError => 401
  | .AuthorizationError => 401
  | .Unauthorized => 401
  | .JWTokenValidationError => 401
  | .JWTokenSignError => 401
  | .MaxPayloadError => 413
  | _ => 500

/-! ## SHA-2 (the sha2 crate used by Digest::hash_digest_file)

Digest::hash_digest_file (src/registry/digest.rs lines 108-151) feeds the
file contents into Sha256 or Sha512 from the sha2 crate, according to the
algorithm of the expected digest, and hex-encodes the result.  The crate
implements FIPS 180-4; the round constants and the initial hash values
below are the standard ones (the fractional parts of the cube roots,
respectively square roots, of the first primes, scaled to the word size).
-/

/-- Parameter block of a SHA-2 family member (FIPS 180-4), modelling the
sha2 crate used by Digest::hash_digest_file. -/
structure Sha2Params where
  w : Nat                     -- word size in bits (32 or 64)
  rounds : Nat                -- 64 or 80
  K : List Nat                -- round constants
  H0 : List Nat               -- initial hash value, 8 words
  bs0 : Nat × Nat × Nat       -- big Sigma0 rotation amounts
  bs1 : Nat × Nat × Nat       -- big Sigma1 rotation amounts
  ss0 : Nat × Nat × Nat       -- small sigma0: two rotations and a shift
  ss1 : Nat × Nat × Nat       -- small sigma1: two rotations and a shift

def K256const : List Nat :=
  [1116352408, 1899447441, 3049323471, 3921009573, 961987163, 1508970993,
   2453635748, 2870763221, 3624381080, 310598401, 607225278, 1426881987,
   1925078388, 2162078206, 2614888103, 3248222580, 3835390401, 4022224774,
   264347078, 604807628, 770255983, 1249150122, 1555081692, 1996064986,
   2554220882, 2821834349, 2952996808, 3210313671, 3336571891, 3584528711,
   113926993, 338241895, 666307205, 773529912, 1294757372, 1396182291,
   1695183700, 1986661051, 2177026350, 2456956037, 2730485921, 2820302411,
   3259730800, 3345764771, 3516065817, 3600352804, 4094571909, 275423344,
   430227734, 506948616, 659060556, 883997877, 958139571, 1322822218,
   1537002063, 1747873779, 1955562222, 2024104815, 2227730452, 2361852424,
   2428436474, 2756734187, 3204031479, 3329325298]

def H256const : List Nat :=
  [1779033703, 3144134277, 1013904242, 2773480762, 1359893119, 2600822924,
   528734635, 1541459225]

def K512const : List Nat :=
  [4794697086780616226, 8158064640168781261, 13096744586834688815, 16840607885511220156,
   4131703408338449720, 6480981068601479193, 10538285296894168987, 12329834152419229976,
   15566598209576043074, 1334009975649890238, 2608012711638119052, 6128411473006802146,
   8268148722764581231, 9286055187155687089, 11230858885718282805, 13951009754708518548,
   16472876342353939154, 17275323862435702243, 1135362057144423861, 2597628984639134821,
   3308224258029322869, 5365058923640841347, 6679025012923562964, 8573033837759648693,
   10970295158949994411, 12119686244451234320, 12683024718118986047, 13788192230050041572,
   14330467153632333762, 15395433587784984357, 489312712824947311, 1452737877330783856,
   2861767655752347644, 3322285676063803686, 5560940570517711597, 5996557281743188959,
   7280758554555802590, 8532644243296465576, 9350256976987008742, 10552545826968843579,
   11727347734174303076, 12113106623233404929, 14000437183269869457, 14369950271660146224,
   15101387698204529176, 15463397548674623760, 17586052441742319658, 1182934255886127544,
   1847814050463011016, 2177327727835720531, 2830643537854262169, 3796741975233480872,
   4115178125766777443, 5681478168544905931, 6601373596472566643, 7507060721942968483,
   8399075790359081724, 8693463985226723168, 9568029438360202098, 10144078919501101548,
   10430055236837252648, 11840083180663258601, 13761210420658862357, 14299343276471374635,
   14566680578165727644, 15097957966210449927, 16922976911328602910, 17689382322260857208,
   500013540394364858, 748580250866718886, 1242879168328830382, 1977374033974150939,
   2944078676154940804, 3659926193048069267, 4368137639120453308, 4836135668995329356,
   5532061633213252278, 6448918945643986474, 6902733635092675308, 7801388544844847127]

def H512const : List Nat :=
  [7640891576956012808, 13503953896175478587, 4354685564936845355, 11912009170470909681,
   5840696475078001361, 11170449401992604703, 2270897969802886507, 6620516959819538809]

def sha256Params : Sha2Params :=
  { w := 32, rounds := 64,
    K := K256const,
    H0 := H256const,
    bs0 := (2, 13, 22), bs1 := (6, 11, 25),
    ss0 := (7, 18, 3), ss1 := (17, 19, 10) }

def sha512Params : Sha2Params :=
  { w := 64, rounds := 80,
    K := K512const,
    H0 := H512const,
    bs0 := (28, 34, 39), bs1 := (14, 18, 41),
    ss0 := (1, 8, 7), ss1 := (19, 61, 6) }

def rotr (w k x : Nat) : Nat := ((x >>> k) ||| (x <<< (w - k))) % (1 <<< w)

def bigSigma (w : Nat) (r : Nat × Nat × Nat) (x : Nat) : Nat :=
  rotr w r.1 x ^^^ rotr w r.2.1 x ^^^ rotr w r.2.2 x

def smallSigma (w : Nat) (r : Nat × Nat × Nat) (x : Nat) : Nat :=
  rotr w r.1 x ^^^ rotr w r.2.1 x ^^^ (x >>> r.2.2)

/-- Message schedule extension.  The accumulator holds the schedule so far
in reverse order; n more words are to be produced. -/
def schedExtend (p : Sha2Params) : Nat → List Nat → List Nat
  | 0, acc => acc.reverse
  | n + 1, acc =>
    let g := fun i => acc.getD i 0
    let word := (smallSigma p.w p.ss1 (g 1) + g 6 + smallSigma p.w p.ss0 (g 14)
      + g 15) % (1 <<< p.w)
    schedExtend p n (word :: acc)

/-- One compression round.  The state is the 8-tuple (a,...,h) as a list. -/
def roundStep (p : Sha2Params) (st : List Nat) (kw : Nat × Nat) : List Nat :=
  match st with
  | [a, b, c, d, e, f, g, h] =>
    let mask := (1 <<< p.w) - 1
    let ch := (e &&& f) ^^^ ((e ^^^ mask) &&& g)
    let maj := (a &&& b) ^^^ (a &&& c) ^^^ (b &&& c)
    let t1 := (h + bigSigma p.w p.bs1 e + ch + kw.1 + kw.2) % (1 <<< p.w)
    let t2 := (bigSigma p.w p.bs0 a + maj) % (1 <<< p.w)
    [(t1 + t2) % (1 <<< p.w), a, b, c, (d + t1) % (1 <<< p.w), e, f, g]
  | other => other

/-- Big-endian word from w/8 bytes. -/
def wordOfBytes (bytes : List Nat) : Nat :=
  bytes.foldl (fun acc b => acc * 256 + b % 256) 0

/-- Split a list into chunks of the given size (fuel-driven; the fuel is
the list length, enough whenever the chunk size is positive). -/
def chunksOfGo (k : Nat) : Nat → List Nat → List (List Nat)
  | 0, _ => []
  | _, [] => []
  | fuel + 1, l => l.take k :: chunksOfGo k fuel (l.drop k)

def chunksOf (k : Nat) (l : List Nat) : List (List Nat) :=
  chunksOfGo k l.length l

/-- Process one message block: schedule then 64/80 rounds, then add to H. -/
def processBlock (p : Sha2Params) (H : List Nat) (block : List Nat) : List Nat :=
  let w16 := (chunksOf (p.w / 8) block).map wordOfBytes
  let sched := schedExtend p (p.rounds - 16) w16.reverse
  let final := (sched.zip p.K).foldl (roundStep p) H
  (H.zip final).map (fun ab => (ab.1 + ab.2) % (1 <<< p.w))

/-- FIPS 180-4 padding: append 0x80, zeros, then the bit length as a
big-endian field of 2w/8 bytes, to a multiple of the block size. -/
def padMessage (p : Sha2Params) (msg : List Nat) : List Nat :=
  let blockBytes := 2 * p.w / 8 * 8
  let lenBytes := 2 * p.w / 8
  let used := (msg.length + 1 + lenBytes) % blockBytes
  let zeros := (blockBytes - used) % blockBytes
  let bitLen := msg.length * 8
  let lenField := (List.range lenBytes).reverse.map
    (fun i => (bitLen >>> (8 * i)) % 256)
  msg ++ 128 :: List.replicate zeros 0 ++ lenField

/-- Bytes of a word, big-endian, w/8 of them. -/
def bytesOfWord (w x : Nat) : List Nat :=
  (List.range (w / 8)).reverse.map (fun i => (x >>> (8 * i)) % 256)

def lowercaseHexDigit (n : Nat) : Char :=
  if n < 10 then Char.ofNat (48 + n) else Char.ofNat (87 + n % 16)

/-- hex::encode: lowercase hexadecimal string of a byte list. -/
def hexEncode (bytes : List Nat) : String :=
  String.mk (bytes.foldr
    (fun b acc => lowercaseHexDigit (b % 256 / 16) :: lowercaseHexDigit (b % 16) :: acc) [])

/-- SHA-2 digest of a byte list under the given parameters, as bytes. -/
def sha2Bytes (p : Sha2Params) (msg : List Nat) : List Nat :=
  let blockBytes := 2 * p.w / 8 * 8
  let blocks := chunksOf blockBytes (padMessage p msg)
  (blocks.foldl (processBlock p) p.H0).foldr (fun x acc => bytesOfWord p.w x ++ acc) []

/-- Lowercase hex SHA-256 of a byte list (models Sha256 of the sha2 crate
followed by hex::encode). -/
def sha256Hex (msg : List Nat) : String := hexEncode (sha2Bytes sha256Params msg)

/-- Lowercase hex SHA-512 of a byte list. -/
def sha512Hex (msg : List Nat) : String := hexEncode (sha2Bytes sha512Params msg)

/-! ## Repository (src/registry/repository.rs) -/

/-- Repository: full name, reference, parsed components and the optional
parsed digest. -/
structure Repository where
  name : String
  reference : String
  components : List String
  digest : Option Digest
deriving DecidableEq, Repr

/-- Repository::new (repository.rs lines 67-99): reject names longer than
255 bytes, split the name on the slash character, require every component
to satisfy REGEX_COMPONENT.is_match. -/
def Repository.new (name : String) : Except RegistryError Repository :=
  if name.utf8ByteSize > 255 then
    .error ((RegistryError.new .RegistryNameInvalid).with_error
      "Repository name max length should be less than 255 chars")
  else
    let components := splitOn '/' name
    if components.all regexComponentIsMatch then
      .ok ⟨name, "", components, none⟩
    else
      .error ((RegistryError.new .RegistryNameInvalid).with_error
        ("Repository component is invalid: " ++ name))

/-- Repository::new_with_reference (repository.rs lines 42-64): parse the
name, set the reference, and if the reference contains a colon AND starts
with the Display form of Sha256 or Sha512 then parse it as a digest
(propagating the parse failure); otherwise the reference must satisfy
REGEX_COMPONENT.is_match or RegistryDigestInvalid is returned. -/
def Repository.new_with_reference (name reference : String) :
    Except RegistryError Repository :=
  match Repository.new name with
  | .error e => .error e
  | .ok repository =>
    let repository := { repository with reference := reference }
    if strContainsChar reference ':' &&
        (strStartsWith reference (DigestAlgorithm.toStr .Sha256) ||
         strStartsWith reference (DigestAlgorithm.toStr .Sha512)) then
      match Digest.parse reference with
      | .error e => .error e
      | .ok d => .ok { repository with digest := some d }
    else if !regexComponentIsMatch reference then
      .error ((RegistryError.new .RegistryDigestInvalid).with_error
        ("Repository reference/tag is invalid: " ++ reference))
    else
      .ok repository

/-! ## Filesystem storage (src/repository/filesystem.rs)

Paths are modelled as lists of components and the filesystem as an
association list from paths to byte contents.  File-open, write, sync and
rename failures are environmental (I/O errors); the model takes the
successful behaviour of each primitive, which is what every claim below
quantifies over.
-/

/-- A filesystem path, as the list of joined components. -/
def FPath := List String
deriving instance DecidableEq, Repr for FPath

/-- The filesystem: an association list from paths to byte contents. -/
def FS := List (FPath × List Nat)
deriving instance DecidableEq, Repr for FS

/-- Content at a path, if a file exists there. -/
def fsGet (fs : FS) (p : FPath) : Option (List Nat) :=
  match fs.find? (fun e => e.1 = p) with
  | some e => some e.2
  | none => none

/-- Write (create or replace) the file at a path. -/
def fsSet (fs : FS) (p : FPath) (content : List Nat) : FS :=
  match fs with
  | [] => [(p, content)]
  | e :: rest => if e.1 = p then (p, content) :: rest else e :: fsSet rest p content

/-- Remove the file at a path. -/
def fsRemove (fs : FS) (p : FPath) : FS :=
  fs.filter (fun e => !(e.1 = p : Bool))

/-- FilesystemStorage::blob_path (filesystem.rs lines 55-62) applied to the
digest that the source unwraps out of the repository:
storage folder / algorithm / hash. -/
def blob_path (folder : String) (d : Digest) : FPath :=
  [folder, d.algo.toStr, d.hash]

/-- FilesystemStorage::blob_path_tmp (filesystem.rs lines 64-71):
storage folder / algorithm / hash_tmp. -/
def blob_path_tmp (folder : String) (d : Digest) : FPath :=
  [folder, d.algo.toStr, d.hash ++ "_tmp"]

/-! ## The blob persist handler (src/handlers/command/blob/persist.rs) -/

/-- Modelled from the spec: src/models/events.rs is not among the sources;
the spec names the single event BlobPersisted, emitted when a blob has been
verified and promoted into the store. -/
inductive RegistryEvent where
  | BlobPersisted
deriving DecidableEq, Repr

/-- Digest of a byte list under the given algorithm, in lowercase hex:
the value computed by Digest::hash_digest_file (digest.rs lines 108-151)
over the file holding exactly those bytes. -/
def hashBytes : DigestAlgorithm → List Nat → String
  | .Sha256, bytes => sha256Hex bytes
  | .Sha512, bytes => sha512Hex bytes

/-- Outcome of one run of BlobPersistHandler::persist: either a Rust panic,
or normal completion with the resulting filesystem and the optionally
emitted event. -/
inductive PersistResult where
  | panicked
  | finished (fs : FS) (event : Option RegistryEvent)
deriving DecidableEq, Repr

/-- BlobPersistHandler::persist (persist.rs lines 33-118).

Control flow of the source, in order:
  line 35: repository.clone().digest.unwrap() — a missing digest PANICS
    (there is no check; Option::unwrap on None aborts the task);
  lines 42-48: OpenOptions read(true).write(true).create(true) on the tmp
    path — note there is NO truncate(true), so a pre-existing tmp file
    keeps its old bytes beyond what is overwritten, and the write cursor
    starts at offset zero;
  lines 56-62: every chunk received on the channel is written in order;
  lines 65-76: sync, rewind;
  line 77: hash the FILE contents (not the received stream) with the
    algorithm of the expected digest;
  lines 79-98: on digest mismatch delete the tmp file and return None;
  line 103: otherwise rename tmp to final and emit BlobPersisted.

The chunk channel is modelled by the list of chunks received before the
sender closes; write/sync/rename/remove failures are environmental error
paths that only log and return None and are not modelled. -/
def BlobPersistHandler.persist (folder : String) (fs : FS) (repository : Repository)
    (chunks : List (List Nat)) : PersistResult :=
  match repository.digest with
  | none => .panicked
  | some original_digest =>
    let file_path_tmp := blob_path_tmp folder original_digest
    let file_path_final := blob_path folder original_digest
    let old := (fsGet fs file_path_tmp).getD []
    let written := chunks.foldr (fun c acc => c ++ acc) []
    let content := written ++ old.drop written.length
    let fs1 := fsSet fs file_path_tmp content
    let blob_digest : Digest := ⟨original_digest.algo, hashBytes original_digest.algo content⟩
    if blob_digest ≠ original_digest then
      .finished (fsRemove fs1 file_path_tmp) none
    else
      .finished (fsSet (fsRemove fs1 file_path_tmp) file_path_final content)
        (some .BlobPersisted)

/-! ## Command bus (src/pubsub/command_bus.rs, src/models/commands.rs) -/

/-- RegistryCommand (src/models/commands.rs lines 15-20).  The chunk
receiver of a persist command is modelled by the list of chunks that will
arrive on it; ManifestSize and MimeType (src/models/types.rs, absent from
the sources) are the size integer and the mime string the manifest
commands carry. -/
inductive RegistryCommand where
  | Shutdown
  | PersistBlob (repository : Repository) (chunks : List (List Nat))
  | PersistManifest (repository : Repository) (digest : Option Digest)
      (size : Int) (mime : String) (chunks : List (List Nat))
deriving DecidableEq, Repr

/-- State of the command bus front end: the shutting-down flag
(an AtomicBool in the source), the contents of the bounded front queue,
and whether the queue receiver has been closed (the only way
Sender::send can fail). -/
structure BusState where
  shutting_down : Bool
  queue : List RegistryCommand
  queueClosed : Bool
deriving DecidableEq, Repr

/-- Observable outcome of CommandBus::publish.  The function returns unit
in the source; the constructors record which branch ran: a drop with a
warning log when shutting down, a successful enqueue, or a logged send
error when the queue receiver is closed.  No branch raises. -/
inductive PublishOutcome where
  | droppedWithWarning
  | enqueued
  | sendFailedLogged
deriving DecidableEq, Repr

/-- CommandBus::publish (command_bus.rs lines 73-84): if the bus is
shutting down, log a warning and return without touching the queue;
otherwise send on the front queue (suspending on a full queue, erroring
only into a log when the receiver is closed). -/
def CommandBus.publish (s : BusState) (exec : RegistryCommand) :
    BusState × PublishOutcome :=
  if s.shutting_down then (s, .droppedWithWarning)
  else if s.queueClosed then (s, .sendFailedLogged)
  else ({ s with queue := s.queue ++ [exec] }, .enqueued)

/-- CommandBus::shutdown (command_bus.rs lines 48-54): set the
shutting-down flag; the subsequent per-topic worker-pool shutdown does not
touch the front-queue state modelled here. -/
def CommandBus.shutdown (s : BusState) : BusState :=
  { s with shutting_down := true }

/-! ## Manifest index (src/db/db_manifests.rs, src/models/manifest_record.rs) -/

/-- A row of the manifests table (db_manifests.rs lines 19-34): all five
columns, with reference stored as TEXT. -/
structure DBRow where
  name : String
  tag : String
  reference : String
  size : Int
  mime : String
deriving DecidableEq, Repr

/-- ManifestRecord (src/models/manifest_record.rs): the parsed row; the
reference digest is optional because DBManifests::parse drops an
unparseable reference column. -/
structure ManifestRecord where
  name : String
  tag : String
  reference : Option Digest
  size : Int
  mime : String
deriving DecidableEq, Repr

/-- DBManifests::parse (db_manifests.rs lines 42-47). -/
def DBManifests.parse (row : DBRow) : ManifestRecord :=
  { name := row.name, tag := row.tag,
    reference := (Digest.parse row.reference).toOption,
    size := row.size, mime := row.mime }

/-- MANIFEST_FOR_TAG (db_manifests.rs line 7) through
DBManifests::manifest_for_tag (lines 55-65): the row whose primary key
(name, tag) matches, parsed.  The PRIMARY KEY makes the row unique; the
model returns the first match. -/
def DBManifests.manifest_for_tag (table : List DBRow) (name tag : String) :
    Option ManifestRecord :=
  (table.find? (fun r => r.name = name && r.tag = tag)).map DBManifests.parse

/-- MANIFEST_UPSERT_QUERY (db_manifests.rs line 10) through
DBManifests::upsert (lines 81-93):
INSERT INTO manifests (name, tag, reference, size, mime) VALUES (...)
ON CONFLICT(name, tag) DO UPDATE SET reference=EXCLUDED.reference.
On a primary-key conflict only the reference column is replaced by the
bound digest string; size and mime keep their stored values.  Without a
conflict the full row is inserted. -/
def DBManifests.upsert (table : List DBRow) (name tag : String)
    (reference : Digest) (size : Int) (mime : String) : List DBRow :=
  let digest := reference.toStr
  if table.any (fun r => r.name = name && r.tag = tag) then
    table.map (fun r =>
      if r.name = name && r.tag = tag then { r with reference := digest } else r)
  else
    table ++ [{ name := name, tag := tag, reference := digest,
                size := size, mime := mime }]

/-! ## HTTP layer (src/api/registry) -/

/-- The three plain counters of src/metrics/mod.rs that the routes under
test touch (the labelled response-code and response-time vectors are not
modelled). -/
structure Metrics where
  incoming : Nat
  cached : Nat
  upstream : Nat
deriving DecidableEq, Repr

/-- An HTTP response: status, headers and body bytes. -/
structure Response where
  status : Nat
  headers : List (String × String)
  body : List Nat
deriving DecidableEq, Repr

/-- First header with the given name. -/
def lookupHeader (hs : List (String × String)) (name : String) : Option String :=
  (hs.find? (fun h => h.1 = name)).map (fun h => h.2)

/-- HeaderMap::insert: replace any header of that name, or add it. -/
def insertHeader (hs : List (String × String)) (name value : String) :
    List (String × String) :=
  hs.filter (fun h => !(h.1 = name : Bool)) ++ [(name, value)]

/-- Modelled from the actix-files library: NamedFile::into_response serves
the file bytes with status 200 and headers derived from the file itself
and its metadata (a content type guessed from the path, and optionally a
metadata-based entity tag); it never produces a docker-content-digest
header.  The model keeps the single file-derived content-type header. -/
def namedFileResponse (content : List Nat) : Response :=
  { status := 200,
    headers := [("content-type", "application/octet-stream")],
    body := content }

/-- is_valid of src/api/registry/blobs.rs (lines 30-50): an empty
reference parses the name only, otherwise name and reference. -/
def is_valid (name reference : String) : Except RegistryError Repository :=
  if reference = "" then Repository.new name
  else Repository.new_with_reference name reference

/-- Outcome of serve_from_cache: a Rust panic (blob_path unwraps the
digest), an error result, or a response, together with the counters. -/
inductive ServeResult where
  | panicked
  | err (e : RegistryError) (m : Metrics)
  | ok (r : Response) (m : Metrics)
deriving DecidableEq, Repr

/-- serve_from_cache (src/api/registry/mod.rs lines 20-62): open the blob
at blob_path (NotFound if absent; blob_path panics when the digest is
absent), replace the content type when a mime is supplied, then insert
docker-content-digest and etag headers holding the digest string, and
increment CACHED_RESPONSES. -/
def serve_from_cache (folder : String) (fs : FS) (repository : Repository)
    (mime : Option String) (m : Metrics) : ServeResult :=
  match repository.digest with
  | none => .panicked
  | some repository_digest =>
    match fsGet fs (blob_path folder repository_digest) with
    | none => .err ((RegistryError.new .NotFound).with_error
        "No such file or directory") m
    | some content =>
      let file := namedFileResponse content
      let file := match mime with
        | some mt => { file with headers := insertHeader file.headers "content-type" mt }
        | none => file
      let digest_string := repository_digest.toStr
      let withDigest :=
        insertHeader (insertHeader file.headers "docker-content-digest" digest_string)
          "etag" digest_string
      let response := { file with headers := withDigest }
      .ok response { m with cached := m.cached + 1 }

/-- Outcome of the blob route handler: an error response, a cache hit
served locally, or the forward-to-upstream path.  The miss path (upstream
request, tee, persist publish) performs network I/O and is represented
opaquely by the forwarded constructor. -/
inductive CacheResult where
  | err (e : RegistryError) (m : Metrics)
  | hit (r : Response) (m : Metrics)
  | forwarded
deriving DecidableEq, Repr

/-- The blob GET/HEAD handler cache (src/api/registry/blobs.rs lines
53-203), up to the upstream forward.  In order: increment
INCOMING_REQUESTS; validate the repository; require a parsed digest (else
RegistryBlobUnknown); try the store.  On a hit (lines 83-98) the file is
served through NamedFile::into_response unchanged — no digest or etag
header is inserted — and CACHED_RESPONSES is incremented. -/
def Blobs.cache (folder : String) (fs : FS) (name reference : String)
    (m : Metrics) : CacheResult :=
  let m1 := { m with incoming := m.incoming + 1 }
  match is_valid name reference with
  | .error e => .err e m1
  | .ok repository =>
    match repository.digest with
    | none => .err ((RegistryError.new .RegistryBlobUnknown).with_error
        ("Failed to parse digest: " ++ repository.reference)) m1
    | some d =>
      match fsGet fs (blob_path folder d) with
      | none => .forwarded
      | some content =>
        .hit (namedFileResponse content) { m1 with cached := m1.cached + 1 }

/-- Result of executing the upstream manifest request
(reqwest::Client::execute): a transport error that is or is not a timeout,
or a response with a status, an optional docker-content-digest header and
an optional content-type header. -/
inductive UpstreamResult where
  | transportErr (timeout : Bool)
  | resp (status : Nat) (dcd : Option String) (contentType : Option String)
deriving DecidableEq, Repr

/-- StatusCode::is_server_error of the http crate: 500..=599. -/
def is_server_error (status : Nat) : Bool :=
  500 ≤ status && status ≤ 599

/-- Outcome of get_manifests: a Rust panic (Result::unwrap on a transport
error), an error response, the cache fallback path
(handle_upstream_error), or the tee-and-stream path. -/
inductive ManifestOutcome where
  | panicked
  | errResp (e : RegistryError) (m : Metrics)
  | fallback (r : ServeResult)
  | streamed (status : Nat) (digest : Option Digest) (mime : String) (m : Metrics)
deriving DecidableEq, Repr

/-- handle_upstream_error (src/api/registry/manifests.rs lines 134-162):
validate the repository, look up the (joined components, reference) key in
the manifest index, require a record with a parsed reference digest (else
RegistryManifestUnknown), rebuild a repository from the record's name and
digest string, and serve the content-addressed blob from the cache with
the record's mime. -/
def handle_upstream_error (folder : String) (fs : FS) (table : List DBRow)
    (name reference : String) (m : Metrics) : ServeResult :=
  match is_valid name reference with
  | .error e => .err e m
  | .ok repository =>
    match DBManifests.manifest_for_tag table
        (String.intercalate "/" repository.components) repository.reference with
    | none => .err (RegistryError.new .RegistryManifestUnknown) m
    | some manifest =>
      match manifest.reference with
      | none => .err (RegistryError.new .RegistryManifestUnknown) m
      | some dref =>
        match Repository.new_with_reference manifest.name dref.toStr with
        | .error e => .err e m
        | .ok manifest_repository =>
          serve_from_cache folder fs manifest_repository (some manifest.mime) m

/-- get_manifests (src/api/registry/manifests.rs lines 21-130).

Control flow of the source, in order: increment INCOMING_REQUESTS (line
27); build_upstream_req (mod.rs lines 65-114) returns NotFound when the
Host header matches no upstream and otherwise increments
INCOMING_REQUESTS again; execute the upstream request; if it failed with
a timeout, run handle_upstream_error (line 46); otherwise UNWRAP the
result (line 51) — a non-timeout transport error PANICS here; if the
status is a 5xx, run handle_upstream_error (line 55); otherwise validate
the repository, parse the docker-content-digest header if non-empty,
take the content type, publish a PersistManifest command and stream the
teed body to the client. -/
def get_manifests (folder : String) (fs : FS) (table : List DBRow)
    (hostFound : Bool) (u : UpstreamResult) (name reference : String)
    (m : Metrics) : ManifestOutcome :=
  let m1 := { m with incoming := m.incoming + 1 }
  if !hostFound then .errResp (RegistryError.new .NotFound) m1
  else
    let m2 := { m1 with incoming := m1.incoming + 1 }
    match u with
    | .transportErr true =>
      .fallback (handle_upstream_error folder fs table name reference m2)
    | .transportErr false => .panicked
    | .resp status dcd contentType =>
      if is_server_error status then
        .fallback (handle_upstream_error folder fs table name reference m2)
      else
        match is_valid name reference with
        | .error e => .errResp e m2
        | .ok _manifest_repository =>
          let digest_header := dcd.getD ""
          let manifest_digest := if digest_header = "" then none
            else (Digest.parse digest_header).toOption
          let content_type := contentType.getD ""
          .streamed status manifest_digest content_type
            { m2 with upstream := m2.upstream + 1 }

/-- Whether a get_manifests outcome took the cache fallback path. -/
def ManifestOutcome.isFallback : ManifestOutcome → Bool
  | .fallback _ => true
  | _ => false

/-! ## Helper lemmas -/

theorem string_mk_toList (s : String) : String.mk s.toList = s := rfl

theorem toList_eq_nil_iff (s : String) : s.toList = [] ↔ s = "" := by
  constructor
  · intro h
    have h2 : String.mk s.toList = String.mk [] := by rw [h]
    simpa using h2
  · intro h; rw [h]; rfl

theorem splitChars_ne_nil (sep : Char) (l : List Char) : splitChars sep l ≠ [] := by
  cases l with
  | nil => simp [splitChars]
  | cons x xs =>
    simp only [splitChars]
    cases splitChars sep xs with
    | nil => simp
    | cons h t => by_cases hx : x = sep <;> simp [hx]

theorem splitChars_of_not_mem (sep : Char) (l : List Char) (h : sep ∉ l) :
    splitChars sep l = [l] := by
  induction l with
  | nil => rfl
  | cons x xs ih =>
    have hx : ¬(x = sep) := by
      intro hEq; exact h (hEq ▸ List.mem_cons_self x xs)
    have hxs : sep ∉ xs := fun hm => h (List.mem_cons_of_mem _ hm)
    simp [splitChars, ih hxs, hx]

theorem splitChars_append_sep (sep : Char) (l1 l2 : List Char) (h : sep ∉ l1) :
    splitChars sep (l1 ++ sep :: l2) = l1 :: splitChars sep l2 := by
  induction l1 with
  | nil =>
    simp only [List.nil_append, splitChars]
    cases hs : splitChars sep l2 with
    | nil => exact absurd hs (splitChars_ne_nil sep l2)
    | cons a b => simp
  | cons x xs ih =>
    have hx : ¬(x = sep) := by
      intro hEq; exact h (hEq ▸ List.mem_cons_self x xs)
    have hxs : sep ∉ xs := fun hm => h (List.mem_cons_of_mem _ hm)
    simp only [List.cons_append, splitChars, List.append_eq]
    rw [ih hxs]
    simp [hx]

theorem splitOn_around_colon (algoStr hash : String)
    (hA : ':' ∉ algoStr.toList) (hH : ':' ∉ hash.toList) :
    splitOn ':' (algoStr ++ ":" ++ hash) = [algoStr, hash] := by
  unfold splitOn
  have hList : (algoStr ++ ":" ++ hash).toList = algoStr.toList ++ ':' :: hash.toList := by
    have h0 : (algoStr ++ ":" ++ hash).toList = (algoStr.toList ++ [':']) ++ hash.toList := rfl
    rw [h0, List.append_assoc]
    rfl
  rw [hList, splitChars_append_sep _ _ _ hA, splitChars_of_not_mem _ _ hH]
  simp [string_mk_toList]

theorem parse_parts_ok_iff (a d : String) (rest : List String) (dg : Digest) :
    Digest.parse_parts (a :: d :: rest) = .ok dg ↔
      (regexAlgoIsMatch a = true ∧ regexDigestIsMatch d = true ∧
        DigestAlgorithm.from_str a = .ok dg.algo ∧ dg.hash = d) := by
  cases dg with
  | mk dalgo dhash =>
    simp only [Digest.parse_parts]
    by_cases hA : regexAlgoIsMatch a = true
    · by_cases hD : regexDigestIsMatch d = true
      · simp only [hA, hD, Bool.not_true, Bool.false_eq_true, if_false, true_and]
        cases hF : DigestAlgorithm.from_str a with
        | error e => simp [hF]
        | ok alg =>
          simp only [hF, Except.ok.injEq, Digest.mk.injEq]
          constructor
          · rintro ⟨u, v⟩; exact ⟨u, v.symm⟩
          · rintro ⟨u, v⟩; exact ⟨u, v.symm⟩
      · have hD2 : regexDigestIsMatch d = false := by
          cases hv : regexDigestIsMatch d
          · rfl
          · exact absurd hv hD
        simp [hA, hD2]
    · have hA2 : regexAlgoIsMatch a = false := by
        cases hv : regexAlgoIsMatch a
        · rfl
        · exact absurd hv hA
      simp [hA2]

theorem parse_ok_iff_parts (s : String) (dg : Digest) :
    Digest.parse s = .ok dg ↔ Digest.parse_parts (splitOn ':' s) = .ok dg := by
  unfold Digest.parse
  cases h : Digest.parse_parts (splitOn ':' s) <;> simp

theorem parse_ok_hash_regex (s : String) (dg : Digest)
    (h : Digest.parse s = .ok dg) : regexDigestIsMatch dg.hash = true := by
  rw [parse_ok_iff_parts] at h
  cases hL : splitOn ':' s with
  | nil => rw [hL] at h; exact absurd h (by simp [Digest.parse_parts])
  | cons a t =>
    cases t with
    | nil => rw [hL] at h; exact absurd h (by simp [Digest.parse_parts])
    | cons d rest =>
      rw [hL, parse_parts_ok_iff] at h
      rw [h.2.2.2]
      exact h.2.1

theorem repository_new_ok (name : String) (r : Repository)
    (h : Repository.new name = .ok r) :
    r = ⟨name, "", splitOn '/' name, none⟩ := by
  unfold Repository.new at h
  by_cases h1 : name.utf8ByteSize > 255
  · simp [h1] at h
  · simp only [h1, if_false] at h
    by_cases h2 : (splitOn '/' name).all regexComponentIsMatch = true
    · simp [h2] at h; exact h.symm
    · have h3 : (splitOn '/' name).all regexComponentIsMatch = false := by
        cases hv : (splitOn '/' name).all regexComponentIsMatch
        · rfl
        · exact absurd hv h2
      simp [h3] at h

theorem new_with_reference_digest_regex (name ref : String) (r : Repository)
    (d : Digest) (h : Repository.new_with_reference name ref = .ok r)
    (hd : r.digest = some d) : regexDigestIsMatch d.hash = true := by
  unfold Repository.new_with_reference at h
  cases hn : Repository.new name with
  | error e => rw [hn] at h; exact absurd h (by simp)
  | ok repo =>
    rw [hn] at h
    simp only at h
    split at h
    · cases hp : Digest.parse ref with
      | error e => rw [hp] at h; exact absurd h (by simp)
      | ok dd =>
        rw [hp] at h
        simp only [Except.ok.injEq] at h
        have : r.digest = some dd := by rw [← h]
        rw [this] at hd
        have hdd : d = dd := by injection hd.symm
        rw [hdd]
        exact parse_ok_hash_regex ref dd hp
    · split at h
      · exact absurd h (by simp)
      · simp only [Except.ok.injEq] at h
        have hnone : r.digest = repo.digest := by rw [← h]
        have hrepo := repository_new_ok name repo hn
        rw [hrepo] at hnone
        simp at hnone
        rw [hnone] at hd
        exact absurd hd (by simp)

theorem find?_map_if_update (p : DBRow → Bool) (upd : DBRow → DBRow)
    (hpres : ∀ r, p (upd r) = p r) (l : List DBRow) (row : DBRow)
    (h : l.find? p = some row) :
    (l.map (fun r => if p r then upd r else r)).find? p = some (upd row) := by
  induction l with
  | nil => simp at h
  | cons e rest ih =>
    cases hpe : p e with
    | true =>
      rw [List.find?_cons_of_pos _ hpe] at h
      have hrow : e = row := by injection h
      subst hrow
      simp only [List.map_cons, if_pos hpe]
      exact List.find?_cons_of_pos _ (by rw [hpres e]; exact hpe)
    | false =>
      have hpe2 : ¬(p e = true) := by simp [hpe]
      rw [List.find?_cons_of_neg _ hpe2] at h
      simp only [List.map_cons, if_neg hpe2]
      rw [List.find?_cons_of_neg _ hpe2]
      exact ih h

/-! ## Claim theorems -/

set_option maxRecDepth 1000000 in
/-- C1.  The claim states that whenever the byte stream received by the
persister hashes, under the algorithm of the expected digest, to a value
different from the expected digest, the temp file is deleted, no file is
created at the final blob path and no BlobPersisted event is emitted.
The code violates this: the temp file is opened WITHOUT truncation
(persist.rs line 45), so bytes of a pre-existing temp file survive past
the freshly written prefix, and the digest check hashes the resulting
FILE, not the received stream.  Concretely: the temp file for the blob
"ab" (bytes 97, 98) is left over holding the full correct content, the
upstream stream truncates after the single byte 97 — whose SHA-256
differs from the expected digest — and the handler nevertheless promotes
the file to the final path and emits BlobPersisted. -/
theorem C1_stale_tmp_commits_despite_stream_mismatch :
    BlobPersistHandler.persist "root"
      [(["root", "sha256", sha256Hex [97, 98] ++ "_tmp"], [97, 98])]
      ⟨"library/nginx", "sha256:" ++ sha256Hex [97, 98], ["library", "nginx"],
        some ⟨.Sha256, sha256Hex [97, 98]⟩⟩
      [[97]]
      = .finished [(["root", "sha256", sha256Hex [97, 98]], [97, 98])]
          (some .BlobPersisted)
    ∧ sha256Hex [97] ≠ sha256Hex [97, 98] :=
  ⟨by decide, by decide⟩

/-- C2 counterexample.  The claim states that a blob cache hit sets both
Docker-Content-Digest and ETag to the digest string.  The blob handler
(blobs.rs lines 83-98) serves the file through NamedFile::into_response
unchanged and inserts neither header: on a concrete hit the response
carries no docker-content-digest header and no digest-valued etag. -/
theorem C2_blob_hit_lacks_digest_headers :
    Blobs.cache "root" [(["root", "sha256", "abcd"], [1, 2, 3])]
      "library/nginx" "sha256:abcd" ⟨0, 0, 0⟩
      = .hit ⟨200, [("content-type", "application/octet-stream")], [1, 2, 3]⟩
          ⟨1, 1, 0⟩
    ∧ lookupHeader [("content-type", "application/octet-stream")]
        "docker-content-digest" = none
    ∧ lookupHeader [("content-type", "application/octet-stream")] "etag"
        ≠ some (Digest.toStr ⟨.Sha256, "abcd"⟩) :=
  ⟨by decide, rfl, by decide⟩

/-- C2 amended.  On a GET/HEAD blob cache hit the handler serves the
stored file as the body and increments CACHED_RESPONSES, but inserts no
Docker-Content-Digest header (and no digest-valued ETag); those headers
are set only by serve_from_cache, the helper used by the manifest
fallback path, which adds both docker-content-digest and etag holding the
digest string and increments CACHED_RESPONSES. -/
theorem C2_blob_hit_serves_file_without_digest_headers
    (folder name reference mime : String) (fs : FS) (m m2 : Metrics)
    (repo : Repository) (d : Digest) (content : List Nat)
    (h1 : is_valid name reference = .ok repo)
    (h2 : repo.digest = some d)
    (h3 : fsGet fs (blob_path folder d) = some content) :
    Blobs.cache folder fs name reference m
      = .hit (namedFileResponse content) ⟨m.incoming + 1, m.cached + 1, m.upstream⟩
    ∧ lookupHeader (namedFileResponse content).headers "docker-content-digest" = none
    ∧ serve_from_cache folder fs repo (some mime) m2
      = .ok ⟨200, [("content-type", mime), ("docker-content-digest", d.toStr),
                   ("etag", d.toStr)], content⟩
          ⟨m2.incoming, m2.cached + 1, m2.upstream⟩ := by
  refine ⟨?_, rfl, ?_⟩
  · simp only [Blobs.cache, h1, h2, h3]
  · simp [serve_from_cache, h2, h3, namedFileResponse, insertHeader]

/-- C2 witness. -/
theorem C2_blob_hit_serves_file_without_digest_headers_witness :
    Blobs.cache "root" [(["root", "sha256", "abcd"], [1, 2, 3])]
      "library/nginx" "sha256:abcd" ⟨0, 0, 0⟩
      = .hit (namedFileResponse [1, 2, 3]) ⟨1, 1, 0⟩
    ∧ lookupHeader (namedFileResponse [1, 2, 3]).headers "docker-content-digest" = none
    ∧ serve_from_cache "root" [(["root", "sha256", "abcd"], [1, 2, 3])]
        ⟨"library/nginx", "sha256:abcd", ["library", "nginx"], some ⟨.Sha256, "abcd"⟩⟩
        (some "application/json") ⟨0, 0, 0⟩
      = .ok ⟨200, [("content-type", "application/json"),
                   ("docker-content-digest", Digest.toStr ⟨.Sha256, "abcd"⟩),
                   ("etag", Digest.toStr ⟨.Sha256, "abcd"⟩)], [1, 2, 3]⟩
          ⟨0, 1, 0⟩ :=
  C2_blob_hit_serves_file_without_digest_headers "root" "library/nginx" "sha256:abcd"
    "application/json" [(["root", "sha256", "abcd"], [1, 2, 3])] ⟨0, 0, 0⟩ ⟨0, 0, 0⟩
    ⟨"library/nginx", "sha256:abcd", ["library", "nginx"], some ⟨.Sha256, "abcd"⟩⟩
    ⟨.Sha256, "abcd"⟩ [1, 2, 3] (by decide) rfl rfl

/-- C3.  The claim states that a PersistBlob command whose repository
carries no digest makes the persist handler log and abort without an
event and without panicking.  The code instead PANICS:
repository.clone().digest.unwrap() at persist.rs line 35 aborts on None.
The theorem evaluates the handler at such a command. -/
theorem C3_persist_without_digest_panics :
    BlobPersistHandler.persist "root" []
      ⟨"library", "latest", ["library"], none⟩ [[1], [2]] = .panicked := rfl

/-- C4.  For a GET manifest request whose upstream call fails with a
transport error that is not a timeout, get_manifests panics (it unwraps
the Err at manifests.rs line 51); and the cache fallback path
(handle_upstream_error) runs exactly when the upstream call timed out or
returned a 5xx status (and the Host matched an upstream). -/
theorem C4_nontimeout_transport_error_panics_fallback_iff :
    (∀ (folder : String) (fs : FS) (table : List DBRow)
        (name reference : String) (m : Metrics),
      get_manifests folder fs table true (.transportErr false) name reference m
        = .panicked)
    ∧ ∀ (folder : String) (fs : FS) (table : List DBRow) (hostFound : Bool)
        (u : UpstreamResult) (name reference : String) (m : Metrics),
      (get_manifests folder fs table hostFound u name reference m).isFallback = true
        ↔ (hostFound = true ∧
            match u with
            | .transportErr t => t = true
            | .resp status _ _ => is_server_error status = true) := by
  constructor
  · intro folder fs table name reference m
    rfl
  · intro folder fs table hostFound u name reference m
    cases hostFound with
    | false => simp [get_manifests, ManifestOutcome.isFallback]
    | true =>
      cases u with
      | transportErr t =>
        cases t <;> simp [get_manifests, ManifestOutcome.isFallback]
      | resp status dcd contentType =>
        by_cases hs : is_server_error status = true
        · simp [get_manifests, hs, ManifestOutcome.isFallback]
        · have hs2 : is_server_error status = false := by
            cases hv : is_server_error status
            · rfl
            · exact absurd hv hs
          simp only [get_manifests, hs2, ManifestOutcome.isFallback,
            Bool.false_eq_true, if_false]
          cases hv : is_valid name reference <;>
            simp [ManifestOutcome.isFallback, hs2]

/-- C5 counterexample.  The claim states that the hash half of a digest
reference is everything after the FIRST colon (so "sha256:ab:cd" must
fail the hex check) and that the algorithm resolves case-insensitively
(so "Sha256:ab" must parse).  The code does the opposite on both counts:
parse_parts reads only parts[0] and parts[1] of the split, ignoring the
rest, and FromStr matches only the exact spellings sha256, SHA256,
sha512, SHA512. -/
theorem C5_second_part_only_and_exact_case :
    Digest.parse "sha256:ab:cd" = .ok ⟨.Sha256, "ab"⟩
    ∧ (Digest.parse "Sha256:ab").toOption = none :=
  ⟨rfl, rfl⟩

/-- C5 amended.  Digest.parse(s) splits s on every colon; it succeeds
exactly when there are at least two parts, the first part matches
REGEX_ALGO and is one of the exact spellings accepted by
DigestAlgorithm::from_str (sha256, SHA256, sha512, SHA512), and the
SECOND part — the text between the first and second colon, any later
parts being ignored — is non-empty hexadecimal; the parsed hash is that
second part. -/
theorem C5_parse_characterization (s : String) (dg : Digest) :
    Digest.parse s = .ok dg ↔
      (match splitOn ':' s with
       | a :: d :: _ =>
           regexAlgoIsMatch a = true ∧ regexDigestIsMatch d = true ∧
             DigestAlgorithm.from_str a = .ok dg.algo ∧ dg.hash = d
       | _ => False) := by
  rw [parse_ok_iff_parts]
  cases hL : splitOn ':' s with
  | nil => simp [Digest.parse_parts]
  | cons a t =>
    cases t with
    | nil => simp [Digest.parse_parts]
    | cons d rest => exact parse_parts_ok_iff a d rest dg

/-- C6 counterexample.  The claim states that a constructed repository
with a digest has a LOWERCASE hex hash whose length matches the
algorithm (64 for sha256).  The parser enforces neither: the reference
"sha256:AB" is accepted with the uppercase two-character hash "AB". -/
theorem C6_uppercase_short_hash_accepted :
    Repository.new_with_reference "library" "sha256:AB"
      = .ok ⟨"library", "sha256:AB", ["library"], some ⟨.Sha256, "AB"⟩⟩
    ∧ "AB".length ≠ 64
    ∧ "AB".toList.any (fun c => 'A' ≤ c && c ≤ 'Z') = true :=
  ⟨by decide, by decide, by decide⟩

/-- C6 amended.  For every successfully constructed Repository whose
digest is present, the digest hash is a non-empty string every character
of which matches [A-Fa-f0-9] (the REGEX_DIGEST class); neither lowercase
form nor an algorithm-dependent length is guaranteed. -/
theorem C6_digest_hash_matches_hex_regex (name reference : String)
    (r : Repository) (d : Digest)
    (h : Repository.new_with_reference name reference = .ok r)
    (hd : r.digest = some d) :
    regexDigestIsMatch d.hash = true :=
  new_with_reference_digest_regex name reference r d h hd

/-- C6 witness. -/
theorem C6_digest_hash_matches_hex_regex_witness :
    regexDigestIsMatch (Digest.hash ⟨.Sha256, "ab"⟩) = true :=
  C6_digest_hash_matches_hex_regex "library" "sha256:ab"
    ⟨"library", "sha256:ab", ["library"], some ⟨.Sha256, "ab"⟩⟩
    ⟨.Sha256, "ab"⟩ (by decide) rfl

/-- C7 counterexample.  The claim lists RegistryNameInvalid among the
validation kinds mapped to status 400; the source
(registry.rs lines 152-160) places it in the not-found group, mapped to
404. -/
theorem C7_name_invalid_maps_to_404 :
    (RegistryError.new .RegistryNameInvalid).status_code = 404
    ∧ (RegistryError.new .RegistryNameInvalid).status_code ≠ 400 :=
  ⟨rfl, by decide⟩

/-- C7 amended.  Of the validation kinds, RegistryDigestInvalid,
RegistrySizeInvalid, RegistryTagInvalid, RegistryManifestInvalid and
RegistryBlobUploadInvalid map to HTTP status 400, whatever the message,
cause and realm; RegistryNameInvalid maps to 404 instead. -/
theorem C7_validation_kind_status_codes (message err realm : String) :
    (RegistryError.mk .RegistryDigestInvalid message err realm).status_code = 400
    ∧ (RegistryError.mk .RegistrySizeInvalid message err realm).status_code = 400
    ∧ (RegistryError.mk .RegistryTagInvalid message err realm).status_code = 400
    ∧ (RegistryError.mk .RegistryManifestInvalid message err realm).status_code = 400
    ∧ (RegistryError.mk .RegistryBlobUploadInvalid message err realm).status_code = 400
    ∧ (RegistryError.mk .RegistryNameInvalid message err realm).status_code = 404 :=
  ⟨rfl, rfl, rfl, rfl, rfl, rfl⟩

/-- C8.  CommandBus::shutdown sets the shutting-down flag, and every
publish on a bus whose shutting-down flag is set returns with the state
unchanged — nothing is enqueued on the front queue — and with the
warn-and-drop outcome rather than any error. -/
theorem C8_publish_after_shutdown_drops (s0 s : BusState)
    (cmd : RegistryCommand) (h : s.shutting_down = true) :
    (CommandBus.shutdown s0).shutting_down = true
    ∧ CommandBus.publish s cmd = (s, .droppedWithWarning) := by
  refine ⟨rfl, ?_⟩
  simp [CommandBus.publish, h]

/-- C8 witness. -/
theorem C8_publish_after_shutdown_drops_witness :
    (CommandBus.shutdown ⟨false, [], false⟩).shutting_down = true
    ∧ CommandBus.publish ⟨true, [], false⟩ .Shutdown
        = (⟨true, [], false⟩, .droppedWithWarning) :=
  C8_publish_after_shutdown_drops ⟨false, [], false⟩ ⟨true, [], false⟩ .Shutdown rfl

/-- C9.  For every digest whose hash is a non-empty string of [A-Fa-f0-9]
characters, parsing its Display form algo:hash returns the same digest
structurally. -/
theorem C9_digest_roundtrip (algo : DigestAlgorithm) (hash : String)
    (h1 : hash ≠ "") (h2 : hash.toList.all isHexChar = true) :
    Digest.parse (Digest.toStr ⟨algo, hash⟩) = .ok ⟨algo, hash⟩ := by
  have hnc : ':' ∉ hash.toList := by
    intro hm
    have hx := List.all_eq_true.mp h2 ':' hm
    exact absurd hx (by decide)
  have hne : hash.toList ≠ [] := by
    intro hnil
    exact h1 ((toList_eq_nil_iff hash).mp hnil)
  have hE : hash.toList.isEmpty = false := by
    cases hv : hash.toList.isEmpty
    · rfl
    · exact absurd (List.isEmpty_iff.mp hv) hne
  have hreg : regexDigestIsMatch hash = true := by
    unfold regexDigestIsMatch
    rw [h2, hE]
    rfl
  cases algo with
  | Sha256 =>
    have hsplit : splitOn ':' ("sha256" ++ ":" ++ hash) = ["sha256", hash] :=
      splitOn_around_colon "sha256" hash (by decide) hnc
    have hts : Digest.toStr ⟨.Sha256, hash⟩ = "sha256" ++ ":" ++ hash := rfl
    rw [hts, parse_ok_iff_parts, hsplit, parse_parts_ok_iff]
    exact ⟨by decide, hreg, rfl, rfl⟩
  | Sha512 =>
    have hsplit : splitOn ':' ("sha512" ++ ":" ++ hash) = ["sha512", hash] :=
      splitOn_around_colon "sha512" hash (by decide) hnc
    have hts : Digest.toStr ⟨.Sha512, hash⟩ = "sha512" ++ ":" ++ hash := rfl
    rw [hts, parse_ok_iff_parts, hsplit, parse_parts_ok_iff]
    exact ⟨by decide, hreg, rfl, rfl⟩

/-- C9 witness. -/
theorem C9_digest_roundtrip_witness :
    Digest.parse (Digest.toStr ⟨.Sha256, "ab"⟩) = .ok ⟨.Sha256, "ab"⟩ :=
  C9_digest_roundtrip .Sha256 "ab" (by decide) (by decide)

/-- C10.  When a row with primary key (name, tag) exists, upsert replaces
only its reference column with the digest string; the size and mime
columns keep their previous values (the row found after the upsert is the
old row with only reference changed). -/
theorem C10_upsert_replaces_reference_only
    (table : List DBRow) (name tag : String) (reference : Digest)
    (size : Int) (mime : String) (row : DBRow)
    (h : table.find? (fun r => r.name = name && r.tag = tag) = some row) :
    (DBManifests.upsert table name tag reference size mime).find?
        (fun r => r.name = name && r.tag = tag)
      = some { row with reference := reference.toStr } := by
  have hany : table.any (fun r => r.name = name && r.tag = tag) = true := by
    rw [List.any_eq_true]
    refine ⟨row, List.mem_of_find?_eq_some h, ?_⟩
    have hpred := List.find?_some h
    simpa using hpred
  simp only [DBManifests.upsert, hany, if_true]
  exact find?_map_if_update (fun r => r.name = name && r.tag = tag)
    (fun r => { r with reference := reference.toStr }) (fun r => rfl) table row h

/-- C10 witness. -/
theorem C10_upsert_replaces_reference_only_witness :
    (DBManifests.upsert [⟨"n", "t", "sha256:aa", 7, "m1"⟩] "n" "t"
        ⟨.Sha256, "bb"⟩ 0 "m2").find?
        (fun r => r.name = "n" && r.tag = "t")
      = some ⟨"n", "t", Digest.toStr ⟨.Sha256, "bb"⟩, 7, "m1"⟩ :=
  C10_upsert_replaces_reference_only [⟨"n", "t", "sha256:aa", 7, "m1"⟩] "n" "t"
    ⟨.Sha256, "bb"⟩ 0 "m2" ⟨"n", "t", "sha256:aa", 7, "m1"⟩ rfl

end RegistryCache
